import Mathlib

/-!
Verification of the project-health scanner (src/main.py) against its
specification. The Python code is shallowly embedded: Python `str` values
are Lean `String`s whose operations are re-implemented structurally over
`List Char` so that every definition is executable by the kernel; Python
floats are modelled as exact rationals (every constant in the scoring code
is a decimal with one fractional digit, so no rounding behaviour is load
bearing for the claims below); Python `int` is `Int`/`Nat`; fallible
subprocess / network / file operations are modelled by explicit outcome
types, with an exception that is caught and discarded appearing as the
corresponding failure constructor.
-/

set_option maxRecDepth 8000

/-! ## String primitives (Python `str` operations, re-implemented structurally) -/

/-- Python `pat` being a prefix of `s` (`str.startswith`), on char lists. -/
def isPrefixL : List Char → List Char → Bool
  | [], _ => true
  | _ :: _, [] => false
  | p :: ps, c :: cs => p == c && isPrefixL ps cs

/-- Python `pat in s` (substring containment), on char lists. -/
def containsL (pat : List Char) : List Char → Bool
  | [] => isPrefixL pat []
  | c :: rest => isPrefixL pat (c :: rest) || containsL pat rest

/-- Python `str.strip()`: drop whitespace from both ends. -/
def trimL (s : List Char) : List Char :=
  ((s.dropWhile Char.isWhitespace).reverse.dropWhile Char.isWhitespace).reverse

/-- Python `str.split(sep)` for a one-character separator. -/
def splitOnCharL (sep : Char) : List Char → List (List Char)
  | [] => [[]]
  | c :: rest =>
    match splitOnCharL sep rest with
    | [] => [[]]
    | h :: t => if c == sep then [] :: h :: t else (c :: h) :: t

/-- Python `str.split(sep)` for a multi-character separator, with explicit
fuel (the separator is never empty in the modelled code, so fuel
`s.length + 1` always suffices). -/
def splitOnLFuel (pat : List Char) : Nat → List Char → List Char → List (List Char)
  | 0, s, acc => [acc.reverse ++ s]
  | fuel + 1, s, acc =>
    match s with
    | [] => [acc.reverse]
    | c :: rest =>
      if isPrefixL pat s then
        acc.reverse :: splitOnLFuel pat fuel (s.drop pat.length) []
      else
        splitOnLFuel pat fuel rest (c :: acc)

/-- The characters after the first occurrence of `pat`, if any
(Python `s.find(pat)` plus slicing past the match). -/
def afterFirstL (pat : List Char) : List Char → Option (List Char)
  | [] => none
  | c :: rest =>
    if isPrefixL pat (c :: rest) then some ((c :: rest).drop pat.length)
    else afterFirstL pat rest

/-- The characters strictly before the first occurrence of `stop`, plus
whether `stop` occurs at all (Python `s.find(stop)` plus slicing). -/
def takeUntilChar (stop : Char) : List Char → List Char × Bool
  | [] => ([], false)
  | c :: rest =>
    if c == stop then ([], true)
    else
      let r := takeUntilChar stop rest
      (c :: r.1, r.2)

/-- `str.strip()` on Lean strings. -/
def pyStrip (s : String) : String := String.mk (trimL s.data)

/-- `s.startswith(pre)` on Lean strings. -/
def pyStartsWith (s pre : String) : Bool := isPrefixL pre.data s.data

/-- `sub in s` on Lean strings. -/
def pyContains (s sub : String) : Bool := containsL sub.data s.data

/-- `s.split('\n')` on Lean strings. -/
def pySplitLines (s : String) : List String := (splitOnCharL '\n' s.data).map String.mk

/-- `s.split(sep)` on Lean strings. -/
def pySplitOn (s sep : String) : List String :=
  (splitOnLFuel sep.data (s.data.length + 1) s.data []).map String.mk

/-- `s.replace(a, b)` for one-character `a`, `b`. -/
def pyReplaceChar (s : String) (a b : Char) : String :=
  String.mk (s.data.map fun c => if c == a then b else c)

/-- Python `min` on rationals (returns the second argument only when it is
strictly smaller, like `min(a, b)`). -/
def pymin (a b : ℚ) : ℚ := if b < a then b else a

/-- Python `max` on rationals. -/
def pymax (a b : ℚ) : ℚ := if b > a then b else a

/-! ## Data model -/

/-- Outcome of one `subprocess.run` git invocation: a completed process
with its return code and captured stdout, or a raised
`TimeoutExpired` / other exception (both caught alike in `_get_git_info`). -/
inductive CmdResult where
  | ok (returncode : Int) (stdout : String)
  | fail
deriving DecidableEq, Repr

/-- Outcome of opening and reading/parsing one manifest file in
`_check_dependencies`: the file is absent, or it exists but reading or
parsing raised (the swallowed `except Exception` path), or it was
read successfully with the payload the code goes on to use. -/
inductive FRead (α : Type) where
  | absent
  | err
  | ok (val : α)
deriving DecidableEq, Repr

/-- Outcome of probing one README candidate file in
`_check_project_quality`: absent, present but unreadable (the
`except` path that forces quality 1), or present with its decoded text. -/
inductive FileOutcome where
  | absent
  | unreadable
  | content (s : String)
deriving DecidableEq, Repr

/-- The dict returned by `_get_git_info` on success (src/main.py lines
189-195). Timestamps are abstract integers. -/
structure GitInfo where
  branch : String
  last_commit : Option Int
  uncommitted : Nat
  status : String
  remote_status : String
deriving DecidableEq, Repr

/-- The dict built by `_check_dependencies` (src/main.py lines 239-244):
`has_deps`, the `languages` list (one entry appended per matched
ecosystem detector, duplicates possible), the ecosystem→count mapping,
and the display strings. -/
structure DepInfo where
  has_deps : Bool
  languages : List String
  dep_counts : List (String × Nat)
  details : List String
deriving DecidableEq, Repr

/-- The dict produced by `_fetch_github_info` / defaulted in
`_analyze_project` (src/main.py lines 103-109, 448-454). -/
structure GithubInfo where
  stars : Int
  open_issues : Int
  open_prs : Nat
  last_activity : Option Int
  workflow_status : String
deriving DecidableEq, Repr

/-- The dict produced by `_check_project_quality` (src/main.py lines
458-468); only the fields consumed by the score aggregator are kept. -/
structure QualityInfo where
  has_readme : Bool
  readme_quality : Nat
  has_tests : Bool
  test_coverage : Nat
  has_ci_cd : Bool
  ci_cd_type : String
  has_documentation : Bool
  code_quality_tools : Nat
  project_structure : Nat
deriving DecidableEq, Repr

/-- The body of the GitHub repository-metadata response, as consumed by
`_fetch_github_info`: star count, the raw `open_issues_count` (which on
GitHub conflates issues and PRs), and the `updated_at` field
(`none` = field absent/empty; `some none` = present but
`datetime.fromisoformat` raised; `some (some t)` = parsed timestamp). -/
structure RepoApiData where
  stargazers_count : Int
  open_issues_count : Int
  updated_at : Option (Option Int)
deriving DecidableEq, Repr

/-- The `ProjectHealth` dataclass (src/main.py lines 23-43). -/
structure ProjectHealth where
  name : String
  path : String
  git_status : String
  last_commit : Option Int
  uncommitted_changes : Nat
  branch : String
  remote_status : String
  languages : List String
  dependencies_status : String
  issues_count : Int
  health_score : ℚ
  github_repo : Option String
  open_issues : Int
  open_prs : Nat
  stars : Int
  workflow_status : String
  last_github_activity : Option Int
deriving DecidableEq, Repr

/-! ## VCS inspector: `_get_git_info` (src/main.py lines 150-206) -/

/-- Count of non-empty lines of `git status --porcelain` output
(src/main.py lines 186-187). -/
def countNonEmptyLines (stdout : String) : Nat :=
  if pyStrip stdout == "" then 0
  else ((pySplitLines (pyStrip stdout)).filter fun l => !(pyStrip l == "")).length

/-- The string handed to `datetime.fromisoformat` (src/main.py lines
172-176): strip, truncate at a `+` timezone offset (re-stripping), and
replace the date/time separator space by `T`. -/
def preprocessDate (stdout : String) : String :=
  let commit_date := pyStrip stdout
  let commit_date :=
    if pyContains commit_date "+" then pyStrip ((pySplitOn commit_date "+").headD commit_date)
    else commit_date
  pyReplaceChar commit_date ' ' 'T'

/-- `_get_git_info`. The three `subprocess.run` outcomes are inputs; a
timeout or other exception anywhere in the `try` block, or a non-zero
return code of any command, yields `none` (the source returns `None`).
`parseDate` abstracts `datetime.fromisoformat`, returning `none` when it
raises; a parse failure only leaves `last_commit` absent. The scoped
working-directory change/restore of the source (lines 152-154, 201-206)
has no observable effect in this model and is omitted. -/
def _get_git_info (parseDate : String → Option Int)
    (branch_res commit_res status_res : CmdResult) : Option GitInfo :=
  match branch_res with
  | .fail => none
  | .ok rc stdout =>
    if rc ≠ 0 then none
    else
      let branch := if pyStrip stdout == "" then "main" else pyStrip stdout
      match commit_res with
      | .fail => none
      | .ok rc2 stdout2 =>
        if rc2 ≠ 0 then none
        else
          let last_commit :=
            if pyStrip stdout2 == "" then none else parseDate (preprocessDate stdout2)
          match status_res with
          | .fail => none
          | .ok rc3 stdout3 =>
            if rc3 ≠ 0 then none
            else
              let uncommitted := countNonEmptyLines stdout3
              some { branch := branch
                     last_commit := last_commit
                     uncommitted := uncommitted
                     status := if uncommitted == 0 then "clean" else "dirty"
                     remote_status := "unknown" }

/-- True when the git sub-operation raised (timeout or other exception)
or completed with a non-zero return code. -/
def cmdFailed : CmdResult → Bool
  | .fail => true
  | .ok rc _ => rc != 0

/-! ## Manifest analyzer: `_check_dependencies` (src/main.py lines 237-345) -/

/-- Loop state of the pyproject.toml section scan
(src/main.py lines 285-288). -/
structure PoetryState where
  in_poetry_deps : Bool
  in_dev_deps : Bool
  poetry_deps : Nat
  dev_deps : Nat
deriving DecidableEq, Repr

/-- One iteration of the pyproject.toml line loop, after `line.strip()`
(src/main.py lines 290-309), transcribing the `elif` chain. -/
def poetryStepStripped (st : PoetryState) (line : String) : PoetryState :=
  if line == "[tool.poetry.dependencies]" then
    { st with in_poetry_deps := true, in_dev_deps := false }
  else if pyStartsWith line "[tool.poetry.group." && pyContains line "dependencies]" then
    { st with in_dev_deps := true, in_poetry_deps := false }
  else if pyStartsWith line "[" && !(line == "[tool.poetry.dependencies]") then
    { st with in_poetry_deps := false, in_dev_deps := false }
  else if st.in_poetry_deps && !(line == "") && !pyStartsWith line "#" && pyContains line "=" then
    if !pyStartsWith line "python" then { st with poetry_deps := st.poetry_deps + 1 } else st
  else if st.in_dev_deps && !(line == "") && !pyStartsWith line "#" && pyContains line "=" then
    { st with dev_deps := st.dev_deps + 1 }
  else st

/-- One iteration of the pyproject.toml line loop on the raw line
(`line = line.strip()` first, src/main.py line 291). -/
def poetryStep (st : PoetryState) (rawLine : String) : PoetryState :=
  poetryStepStripped st (pyStrip rawLine)

/-- The `(poetry_deps, dev_deps)` counts after scanning all lines
(src/main.py lines 285-309). -/
def poetryCounts (lines : List String) : Nat × Nat :=
  let st := lines.foldl poetryStep ⟨false, false, 0, 0⟩
  (st.poetry_deps, st.dev_deps)

/-- The fallback estimate for a non-Poetry `dependencies = [` array
(src/main.py lines 312-317): take the content from the marker up to the
first following `]` (to the end minus one character when there is no
`]`, as `content.find` returns -1 then) and halve the number of
double-quote characters. The marker itself contains no quote, so only
the characters after it are counted. -/
def inlineDepsCount (content : String) : Nat :=
  match afterFirstL "dependencies = [".data content.data with
  | none => 0
  | some after =>
    let r := takeUntilChar ']' after
    let seg := if r.2 then r.1 else after.dropLast
    (seg.filter fun c => c == '"').length / 2

/-- `_check_dependencies`. Each manifest's read/parse outcome is an
input; the `except` paths (`.err`) and absence leave that ecosystem
unrecorded. For package.json the payload is the two dict sizes
`(len(dependencies), len(devDependencies))`; for requirements.txt and
go.mod it is the line list; for pyproject.toml the full text. -/
def _check_dependencies (pkg : FRead (Nat × Nat)) (req : FRead (List String))
    (pyp : FRead String) (gomod : FRead (List String)) : DepInfo :=
  let di : DepInfo := ⟨false, [], [], []⟩
  let di : DepInfo :=
    match pkg with
    | .ok v =>
      { di with has_deps := true
                languages := di.languages ++ ["Node.js"]
                dep_counts := di.dep_counts ++ [("npm", v.1 + v.2)]
                details := di.details ++
                  ["npm: " ++ toString v.1 ++ " deps, " ++ toString v.2 ++ " dev deps"] }
    | _ => di
  let di : DepInfo :=
    match req with
    | .ok lines =>
      let dep_count := (lines.filter fun l => !(pyStrip l == "") && !pyStartsWith l "#").length
      { di with has_deps := true
                languages := di.languages ++ ["Python"]
                dep_counts := di.dep_counts ++ [("pip", dep_count)]
                details := di.details ++ ["pip: " ++ toString dep_count ++ " requirements"] }
    | _ => di
  let di : DepInfo :=
    match pyp with
    | .ok content =>
      let counts := poetryCounts (pySplitLines content)
      let poetry_deps :=
        if pyContains content "dependencies = [" && counts.1 == 0 then inlineDepsCount content
        else counts.1
      let dev_deps := counts.2
      if poetry_deps > 0 ∨ dev_deps > 0 then
        { di with has_deps := true
                  languages := di.languages ++ ["Python"]
                  dep_counts := di.dep_counts ++ [("poetry", poetry_deps + dev_deps)]
                  details := di.details ++
                    [if dev_deps > 0 then
                      "poetry: " ++ toString poetry_deps ++ " deps, " ++ toString dev_deps ++ " dev deps"
                     else "poetry: " ++ toString poetry_deps ++ " deps"] }
      else di
    | _ => di
  match gomod with
  | .ok lines =>
    let dep_count := (lines.filter fun l =>
      !(pyStrip l == "") && !pyStartsWith (pyStrip l) "module" && !pyStartsWith (pyStrip l) "go").length
    { di with has_deps := true
              languages := di.languages ++ ["Go"]
              dep_counts := di.dep_counts ++ [("go", dep_count)]
              details := di.details ++ ["go: " ++ toString dep_count ++ " modules"] }
  | _ => di

/-! ## Remote metadata fetcher: `_fetch_github_info` (src/main.py lines 387-454) -/

/-- The all-default dict used both when no remote identifier exists
(src/main.py lines 103-109) and when the metadata request fails
(lines 448-454). -/
def default_github_info : GithubInfo :=
  { stars := 0, open_issues := 0, open_prs := 0, last_activity := none,
    workflow_status := "unknown" }

/-- `_fetch_github_info`. `repo_resp` is the repository-metadata request
outcome (`none` = network error, timeout, non-2xx HTTP status or parse
error anywhere in the outer `try`); `pr_resp` is the open-pull-request
list request outcome (`none` = the analogous failure of the inner
`try`, which falls back to PR count 0 and the raw conflated issue
count). The function never raises: every exception is caught. -/
def _fetch_github_info (repo_resp : Option RepoApiData)
    (pr_resp : Option (List Unit)) : GithubInfo :=
  match repo_resp with
  | none => default_github_info
  | some data =>
    let last_activity : Option Int :=
      match data.updated_at with
      | some p => p
      | none => none
    match pr_resp with
    | some pr_data =>
      { stars := data.stargazers_count
        open_issues := max 0 (data.open_issues_count - pr_data.length)
        open_prs := pr_data.length
        last_activity := last_activity
        workflow_status := "unknown" }
    | none =>
      { stars := data.stargazers_count
        open_issues := data.open_issues_count
        open_prs := 0
        last_activity := last_activity
        workflow_status := "unknown" }

/-! ## Quality heuristics, README portion: `_check_project_quality`
(src/main.py lines 471-493) -/

/-- The fixed README candidate list (src/main.py line 472). -/
def readme_files : List String := ["README.md", "README.rst", "README.txt", "readme.md"]

/-- The tier assigned from `len(content)` — the number of characters of
the decoded text (src/main.py lines 480-490). -/
def readmeTierLen (n : Nat) : Nat :=
  if n > 2000 then 5 else if n > 1000 then 4 else if n > 500 then 3
  else if n > 200 then 2 else 1

/-- Modelled from the spec: the tier the specification describes, from
the file's BYTE length, to be compared with `readmeTierLen`, which the
code applies to the character count. -/
def readmeTierBytes (s : String) : Nat :=
  if s.utf8ByteSize > 2000 then 5 else if s.utf8ByteSize > 1000 then 4
  else if s.utf8ByteSize > 500 then 3 else if s.utf8ByteSize > 200 then 2 else 1

/-- The README scan over a candidate list: the first existing candidate
wins (`break` on line 493); a read error on it forces quality 1
(lines 491-492). Returns `(has_readme, readme_quality)`. -/
def checkReadmeList (fs : String → FileOutcome) : List String → Bool × Nat
  | [] => (false, 0)
  | f :: rest =>
    match fs f with
    | .absent => checkReadmeList fs rest
    | .unreadable => (true, 1)
    | .content s => (true, readmeTierLen s.length)

/-- The README portion of `_check_project_quality`, over the fixed
candidate list. -/
def check_readme (fs : String → FileOutcome) : Bool × Nat :=
  checkReadmeList fs readme_files

/-! ## Score aggregator: `_calculate_health_score` (src/main.py lines 593-697).
Each block transcribes one commented section of the source, threading the
running `score` exactly as the source mutates it. -/

/-- Uncommitted-changes deduction (src/main.py lines 597-604). -/
def uncommittedBlock (uncommitted : Nat) (score : ℚ) : ℚ :=
  if uncommitted > 0 then
    if uncommitted > 50 then score - 3
    else if uncommitted > 10 then score - 2
    else score - pymin 1 ((uncommitted : ℚ) * (1/10))
  else score

/-- Days from the last commit to scan time, `timedelta.days` (floor). -/
def daysBetween (now t : Int) : Int := (now - t).fdiv 86400

/-- Commit-age deduction (src/main.py lines 606-616). -/
def commitAgeBlock (now : Int) (last_commit : Option Int) (score : ℚ) : ℚ :=
  match last_commit with
  | none => score
  | some t =>
    let days_old := daysBetween now t
    if days_old > 365 then score - 4
    else if days_old > 180 then score - 5/2
    else if days_old > 60 then score - 3/2
    else if days_old > 14 then score - 1/2
    else score

/-- Unknown remote-status deduction (src/main.py lines 618-620). -/
def remoteStatusBlock (remote_status : String) (score : ℚ) : ℚ :=
  if remote_status = "unknown" then score - 1/2 else score

/-- Total declared dependencies across ecosystems
(src/main.py line 627). -/
def totalDeps (dep : DepInfo) : Nat := (dep.dep_counts.map Prod.snd).sum

/-- Dependency bonuses/penalty (src/main.py lines 622-631). -/
def depsBlock (dep : DepInfo) (score : ℚ) : ℚ :=
  if dep.has_deps then
    let score := score + 1/2
    let total_deps := totalDeps dep
    if 5 ≤ total_deps ∧ total_deps ≤ 50 then score + 3/10
    else if total_deps > 100 then score - 1/2
    else score
  else score

/-- Multi-language bonus (src/main.py lines 633-635): tests the LENGTH of
the `languages` list built by `_check_dependencies`. -/
def multiLangBlock (dep : DepInfo) (score : ℚ) : ℚ :=
  if dep.languages.length > 1 then score + 1/5 else score

/-- Open-issues deduction (src/main.py lines 639-646). -/
def issuesBlock (open_issues : Int) (score : ℚ) : ℚ :=
  if open_issues > 50 then score - 3/2
  else if open_issues > 20 then score - 1
  else if open_issues > 10 then score - 1/2
  else score

/-- Open-PRs bonus/penalty (src/main.py lines 648-653). -/
def prsBlock (open_prs : Nat) (score : ℚ) : ℚ :=
  if 1 ≤ open_prs ∧ open_prs ≤ 5 then score + 3/10
  else if open_prs > 10 then score - 3/10
  else score

/-- Stars bonus (src/main.py lines 655-662). -/
def starsBlock (stars : Int) (score : ℚ) : ℚ :=
  if stars > 1000 then score + 1/2
  else if stars > 100 then score + 3/10
  else if stars > 10 then score + 1/10
  else score

/-- Recent-remote-activity bonus (src/main.py lines 664-670), applied
only when a local last-commit time also exists. -/
def activityBlock (now : Int) (last_activity git_last_commit : Option Int) (score : ℚ) : ℚ :=
  match last_activity, git_last_commit with
  | some act, some _ => if daysBetween now act ≤ 7 then score + 1/5 else score
  | _, _ => score

/-- GitHub-based scoring (src/main.py lines 637-670). `git_last_commit`
is `git_info.get('last_commit')`, gating the recent-activity bonus. -/
def githubBlock (now : Int) (git_last_commit : Option Int)
    (github_info : Option GithubInfo) (score : ℚ) : ℚ :=
  match github_info with
  | none => score
  | some g =>
    activityBlock now g.last_activity git_last_commit
      (starsBlock g.stars (prsBlock g.open_prs (issuesBlock g.open_issues score)))

/-- Quality-based scoring (src/main.py lines 672-695). -/
def qualityBlock (quality_info : Option QualityInfo) (score : ℚ) : ℚ :=
  match quality_info with
  | none => score
  | some q =>
    let score := if q.has_readme then score + (3/10 + (q.readme_quality : ℚ) * (1/10)) else score
    let score := if q.has_documentation then score + 2/5 else score
    let score := if q.has_tests then score + (1/2 + (q.test_coverage : ℚ) * (1/10)) else score
    let score := if q.has_ci_cd then score + 3/5 else score
    let score := score + pymin (1/2) ((q.code_quality_tools : ℚ) * (1/10))
    score + (q.project_structure : ℚ) * (1/10)

/-- `_calculate_health_score` (src/main.py lines 593-697): baseline 10,
the blocks in source order, then `max(0.0, min(10.0, score))`. -/
def _calculate_health_score (now : Int) (git_info : GitInfo) (dep_info : DepInfo)
    (github_info : Option GithubInfo) (quality_info : Option QualityInfo) : ℚ :=
  let score : ℚ := 10
  let score := uncommittedBlock git_info.uncommitted score
  let score := commitAgeBlock now git_info.last_commit score
  let score := remoteStatusBlock git_info.remote_status score
  let score := depsBlock dep_info score
  let score := multiLangBlock dep_info score
  let score := githubBlock now git_info.last_commit github_info score
  let score := qualityBlock quality_info score
  pymax 0 (pymin 10 score)

/-! ## The same adjustments as signed deltas. Each `...Adj` is the amount
its block adds to the running score; the `..._eq` lemmas below prove the
blocks equal to `score + delta`, and `healthScoreRaw` is the resulting
unclamped sum. -/

/-- Delta of `uncommittedBlock`. -/
def uncommittedAdj (n : Nat) : ℚ :=
  if n > 0 then
    if n > 50 then -3 else if n > 10 then -2 else -(pymin 1 ((n : ℚ) * (1/10)))
  else 0

/-- Delta of `commitAgeBlock`. -/
def commitAgeAdj (now : Int) (last_commit : Option Int) : ℚ :=
  match last_commit with
  | none => 0
  | some t =>
    let days_old := daysBetween now t
    if days_old > 365 then -4
    else if days_old > 180 then -(5/2)
    else if days_old > 60 then -(3/2)
    else if days_old > 14 then -(1/2)
    else 0

/-- Delta of `remoteStatusBlock`. -/
def remoteStatusAdj (remote_status : String) : ℚ :=
  if remote_status = "unknown" then -(1/2) else 0

/-- Delta of `depsBlock`. -/
def depsAdj (dep : DepInfo) : ℚ :=
  if dep.has_deps then
    1/2 + (if 5 ≤ totalDeps dep ∧ totalDeps dep ≤ 50 then 3/10
           else if totalDeps dep > 100 then -(1/2) else 0)
  else 0

/-- Delta of `multiLangBlock`. -/
def multiLangAdj (dep : DepInfo) : ℚ :=
  if dep.languages.length > 1 then 1/5 else 0

/-- The open-issues component of `githubBlock` (src/main.py lines 639-646). -/
def openIssuesAdj (n : Int) : ℚ :=
  if n > 50 then -(3/2) else if n > 20 then -1 else if n > 10 then -(1/2) else 0

/-- The open-PRs component of `githubBlock` (src/main.py lines 648-653). -/
def openPRsAdj (n : Nat) : ℚ :=
  if 1 ≤ n ∧ n ≤ 5 then 3/10 else if n > 10 then -(3/10) else 0

/-- The stars component of `githubBlock` (src/main.py lines 655-662). -/
def starsAdj (n : Int) : ℚ :=
  if n > 1000 then 1/2 else if n > 100 then 3/10 else if n > 10 then 1/10 else 0

/-- The recent-activity component of `githubBlock`
(src/main.py lines 664-670). -/
def activityAdj (now : Int) (last_activity git_last_commit : Option Int) : ℚ :=
  match last_activity, git_last_commit with
  | some act, some _ => if daysBetween now act ≤ 7 then 1/5 else 0
  | _, _ => 0

/-- Delta of `githubBlock`. -/
def githubAdj (now : Int) (git_last_commit : Option Int)
    (github_info : Option GithubInfo) : ℚ :=
  match github_info with
  | none => 0
  | some g =>
    openIssuesAdj g.open_issues + openPRsAdj g.open_prs + starsAdj g.stars +
      activityAdj now g.last_activity git_last_commit

/-- Delta of `qualityBlock`. -/
def qualityAdj (quality_info : Option QualityInfo) : ℚ :=
  match quality_info with
  | none => 0
  | some q =>
    (if q.has_readme then 3/10 + (q.readme_quality : ℚ) * (1/10) else 0)
    + (if q.has_documentation then 2/5 else 0)
    + (if q.has_tests then 1/2 + (q.test_coverage : ℚ) * (1/10) else 0)
    + (if q.has_ci_cd then 3/5 else 0)
    + pymin (1/2) ((q.code_quality_tools : ℚ) * (1/10))
    + (q.project_structure : ℚ) * (1/10)

/-- The unclamped score: baseline 10 plus all deltas. -/
def healthScoreRaw (now : Int) (git_info : GitInfo) (dep_info : DepInfo)
    (github_info : Option GithubInfo) (quality_info : Option QualityInfo) : ℚ :=
  10 + uncommittedAdj git_info.uncommitted
     + commitAgeAdj now git_info.last_commit
     + remoteStatusAdj git_info.remote_status
     + depsAdj dep_info
     + multiLangAdj dep_info
     + githubAdj now git_info.last_commit github_info
     + qualityAdj quality_info

/-! ## Walker: `_analyze_project` and `scan_projects`
(src/main.py lines 53-148) -/

/-- Everything `_analyze_project` observes about one directory: the
filesystem, subprocess and network facts its sub-components consume. -/
structure ProjectEnv where
  name : String
  path : String
  has_git : Bool
  branch_res : CmdResult
  commit_res : CmdResult
  status_res : CmdResult
  parseDate : String → Option Int
  languages : List String
  dep_pkg : FRead (Nat × Nat)
  dep_req : FRead (List String)
  dep_pyp : FRead String
  dep_gomod : FRead (List String)
  github_repo : Option String
  repo_resp : Option RepoApiData
  pr_resp : Option (List Unit)
  quality_info : QualityInfo
  now : Int

/-- `_analyze_project` (src/main.py lines 82-148): admission gate on
`.git`, VCS inspection (whose failure skips the project), then the three
advisory signal sources and the aggregated score. `languages` and
`quality_info` carry the results of `_detect_languages` and
`_check_project_quality`, which always succeed. -/
def _analyze_project (env : ProjectEnv) : Option ProjectHealth :=
  if env.has_git then
    match _get_git_info env.parseDate env.branch_res env.commit_res env.status_res with
    | none => none
    | some git_info =>
      let dep_info := _check_dependencies env.dep_pkg env.dep_req env.dep_pyp env.dep_gomod
      let github_info :=
        match env.github_repo with
        | some _ => _fetch_github_info env.repo_resp env.pr_resp
        | none => default_github_info
      let health_score :=
        _calculate_health_score env.now git_info dep_info (some github_info)
          (some env.quality_info)
      let dep_display :=
        if dep_info.has_deps then String.intercalate ", " dep_info.details
        else "No dependencies found"
      some { name := env.name
             path := env.path
             git_status := git_info.status
             last_commit := git_info.last_commit
             uncommitted_changes := git_info.uncommitted
             branch := git_info.branch
             remote_status := git_info.remote_status
             languages := env.languages
             dependencies_status := dep_display
             issues_count := github_info.open_issues
             health_score := health_score
             github_repo := env.github_repo
             open_issues := github_info.open_issues
             open_prs := github_info.open_prs
             stars := github_info.stars
             workflow_status := github_info.workflow_status
             last_github_activity := github_info.last_activity }
  else none

/-- One entry of `base_path.iterdir()`: its name, whether it is a
directory, and the analysis-relevant facts about it. -/
structure DirEntry where
  name : String
  is_dir : Bool
  env : ProjectEnv

/-- `scan_projects` (src/main.py lines 53-80): the root itself when it
has a `.git` entry, then each immediate child that is a non-hidden
directory; a child whose analysis returns `None` is skipped. -/
def scan_projects (root : ProjectEnv) (items : List DirEntry) : List ProjectHealth :=
  (if root.has_git then (_analyze_project root).toList else []) ++
    items.filterMap fun it =>
      if it.is_dir && !pyStartsWith it.name "." then _analyze_project it.env else none

/-! ## Spec-side definitions and concrete inputs used by the claims -/

/-- The predicate the pyproject section loop counts inside the
`[tool.poetry.dependencies]` section: stripped line non-empty, not a
comment, contains the key/value separator, and does NOT start with the
prefix `python` (src/main.py lines 305-307). -/
def entryCounted (l : String) : Bool :=
  !(pyStrip l == "") && !pyStartsWith (pyStrip l) "#" && pyContains (pyStrip l) "=" &&
    !pyStartsWith (pyStrip l) "python"

/-- A stripped line that (re-)enters or leaves a section in the
pyproject loop: any of the three header branches of
`poetryStepStripped` could fire on it. -/
def isSectionHeaderish (l : String) : Bool :=
  (pyStrip l == "[tool.poetry.dependencies]") ||
  (pyStartsWith (pyStrip l) "[tool.poetry.group." && pyContains (pyStrip l) "dependencies]") ||
  pyStartsWith (pyStrip l) "["

/-- Modelled from the spec: a version-pin line for the language runtime
itself, i.e. a line whose key (the text before the separator, stripped)
is exactly `python`. -/
def isRuntimePin (l : String) : Bool :=
  pyStrip ((pySplitOn (pyStrip l) "=").headD (pyStrip l)) == "python"

/-- Modelled from the spec: the count the claim describes for a
dependency-declaration section — every non-comment line containing a
key/value separator except the runtime version-pin line. -/
def claimSectionCount (entries : List String) : Nat :=
  (entries.filter fun l =>
    !(pyStrip l == "") && !pyStartsWith (pyStrip l) "#" && pyContains (pyStrip l) "=" &&
      !(isRuntimePin l)).length

/-- Section entries for the C9 counterexample: the runtime pin, a
dependency whose name merely starts with `python`, and an ordinary one. -/
def entriesC9 : List String :=
  ["python = \"^3.10\"", "python-dateutil = \"^2.8\"", "requests = \"^2\""]

/-- The C9 counterexample manifest lines. -/
def pypLinesC9 : List String := "[tool.poetry.dependencies]" :: entriesC9

/-- Git data as reported by the VCS inspector for the C2 scenario: 75
uncommitted changes, a last commit 400 days old, and the
`remote_status` the inspector always reports (src/main.py line 194). -/
def gitC2 : GitInfo :=
  { branch := "main", last_commit := some 0, uncommitted := 75, status := "dirty",
    remote_status := "unknown" }

/-- No dependency manifest detected. -/
def dep0 : DepInfo := { has_deps := false, languages := [], dep_counts := [], details := [] }

/-- No README, tests, CI, documentation, quality tools or structure. -/
def qual0 : QualityInfo :=
  { has_readme := false, readme_quality := 0, has_tests := false, test_coverage := 0,
    has_ci_cd := false, ci_cd_type := "none", has_documentation := false,
    code_quality_tools := 0, project_structure := 0 }

/-- Scan time for the C2 scenario: 400 days after the last commit. -/
def nowC2 : Int := 400 * 86400

/-- Repository-metadata response for the C3 scenario: raw open-issue
count 30. -/
def repoC3 : RepoApiData := { stargazers_count := 0, open_issues_count := 30, updated_at := none }

/-- An open-pull-request list with 10 entries. -/
def prListC3 : List Unit := List.replicate 10 ()

/-- README text of 251 two-byte characters: 251 ≤ 500 characters but
502 > 500 bytes, separating the two tier readings. -/
def readmeC7 : String := String.mk (List.replicate 251 'é')

/-- A project filesystem whose only README candidate is `README.md`
with content `readmeC7`. -/
def fsC7 : String → FileOutcome :=
  fun f => if f == "README.md" then FileOutcome.content readmeC7 else FileOutcome.absent

/-- pyproject.toml content for the C8 counterexample: a Poetry section
with one dependency. -/
def pypC8 : String := "[tool.poetry.dependencies]\nflask = \"0.1\""

/-- Dependency analysis of a project holding both a requirements.txt
(one line) and the Poetry pyproject above: two matched Python
detectors, one distinct language. -/
def depC8 : DepInfo :=
  _check_dependencies .absent (.ok ["requests"]) (.ok pypC8) .absent

/-- A timestamp parser that always fails, standing in for
`datetime.fromisoformat` raising. -/
def pf0 : String → Option Int := fun _ => none

/-- The git data produced for a clean repository with empty log output. -/
def gitOk : GitInfo :=
  { branch := "main", last_commit := none, uncommitted := 0, status := "clean",
    remote_status := "unknown" }

/-- A concrete analyzable directory: has `.git`, all three git commands
succeed, no manifests, a GitHub remote whose metadata request fails. -/
def envOk : ProjectEnv :=
  { name := "p", path := "/p", has_git := true,
    branch_res := .ok 0 "main", commit_res := .ok 0 "", status_res := .ok 0 "",
    parseDate := pf0, languages := [],
    dep_pkg := .absent, dep_req := .absent, dep_pyp := .absent, dep_gomod := .absent,
    github_repo := some "u/r", repo_resp := none, pr_resp := none,
    quality_info := qual0, now := 0 }

/-- The record `_analyze_project` produces for `envOk`. -/
def healthOk : ProjectHealth :=
  { name := "p", path := "/p", git_status := "clean", last_commit := none,
    uncommitted_changes := 0, branch := "main", remote_status := "unknown",
    languages := [], dependencies_status := "No dependencies found", issues_count := 0,
    health_score := 19/2, github_repo := some "u/r", open_issues := 0, open_prs := 0,
    stars := 0, workflow_status := "unknown", last_github_activity := none }

/-- Repository-metadata response for the C4 counterexample: 5 stars,
raw open-issue count 3. -/
def repoC4 : RepoApiData := { stargazers_count := 5, open_issues_count := 3, updated_at := none }

/-- Like `envOk`, but the metadata request succeeds while the
pull-request list request fails (e.g. its 5-unit timeout expires). -/
def envC4 : ProjectEnv := { envOk with repo_resp := some repoC4, pr_resp := none }

/-- The record `_analyze_project` produces for `envC4`: still included,
but with the 5 stars and 3 raw issues of the successful first request. -/
def healthC4 : ProjectHealth :=
  { name := "p", path := "/p", git_status := "clean", last_commit := none,
    uncommitted_changes := 0, branch := "main", remote_status := "unknown",
    languages := [], dependencies_status := "No dependencies found", issues_count := 3,
    health_score := 19/2, github_repo := some "u/r", open_issues := 3, open_prs := 0,
    stars := 5, workflow_status := "unknown", last_github_activity := none }

/-- A directory without a `.git` entry. -/
def envNoGit : ProjectEnv := { envOk with has_git := false }

/-- Like `envOk`, but the branch query raises (e.g. times out). -/
def envFail : ProjectEnv := { envOk with branch_res := .fail }

/-- Commit stdout for the C6 witness: a timestamp string the failing
parser rejects. -/
def dateW : String := "2021-01-01 12:00:00 +0200"

/-! ## Helper lemmas: each score block equals `score + delta`, and the
aggregate equals the clamped raw sum. -/

theorem uncommittedBlock_eq (n : Nat) (s : ℚ) :
    uncommittedBlock n s = s + uncommittedAdj n := by
  unfold uncommittedBlock uncommittedAdj
  split_ifs <;> ring

theorem commitAgeBlock_eq (now : Int) (lc : Option Int) (s : ℚ) :
    commitAgeBlock now lc s = s + commitAgeAdj now lc := by
  cases lc with
  | none => simp [commitAgeBlock, commitAgeAdj]
  | some t =>
    simp only [commitAgeBlock, commitAgeAdj]
    split_ifs <;> ring

theorem remoteStatusBlock_eq (rs : String) (s : ℚ) :
    remoteStatusBlock rs s = s + remoteStatusAdj rs := by
  unfold remoteStatusBlock remoteStatusAdj
  split_ifs <;> ring

theorem depsBlock_eq (dep : DepInfo) (s : ℚ) :
    depsBlock dep s = s + depsAdj dep := by
  simp only [depsBlock, depsAdj]
  split_ifs <;> ring

theorem multiLangBlock_eq (dep : DepInfo) (s : ℚ) :
    multiLangBlock dep s = s + multiLangAdj dep := by
  unfold multiLangBlock multiLangAdj
  split_ifs <;> ring

theorem issuesBlock_eq (n : Int) (s : ℚ) : issuesBlock n s = s + openIssuesAdj n := by
  simp only [issuesBlock, openIssuesAdj]
  split_ifs <;> ring

theorem prsBlock_eq (n : Nat) (s : ℚ) : prsBlock n s = s + openPRsAdj n := by
  simp only [prsBlock, openPRsAdj]
  split_ifs <;> ring

theorem starsBlock_eq (n : Int) (s : ℚ) : starsBlock n s = s + starsAdj n := by
  simp only [starsBlock, starsAdj]
  split_ifs <;> ring

theorem activityBlock_eq (now : Int) (la lc : Option Int) (s : ℚ) :
    activityBlock now la lc s = s + activityAdj now la lc := by
  cases la <;> cases lc <;> simp only [activityBlock, activityAdj] <;>
    first
    | (split_ifs <;> ring)
    | ring

theorem githubBlock_eq (now : Int) (lc : Option Int) (gh : Option GithubInfo) (s : ℚ) :
    githubBlock now lc gh s = s + githubAdj now lc gh := by
  cases gh with
  | none => simp only [githubBlock, githubAdj]; ring
  | some g =>
    simp only [githubBlock, githubAdj]
    rw [issuesBlock_eq, prsBlock_eq, starsBlock_eq, activityBlock_eq]
    ring

theorem qualityBlock_eq (q : Option QualityInfo) (s : ℚ) :
    qualityBlock q s = s + qualityAdj q := by
  cases q with
  | none => simp [qualityBlock, qualityAdj]
  | some qi =>
    simp only [qualityBlock, qualityAdj]
    split_ifs <;> ring

theorem health_score_eq_raw (now : Int) (gi : GitInfo) (dep : DepInfo)
    (gh : Option GithubInfo) (q : Option QualityInfo) :
    _calculate_health_score now gi dep gh q =
      pymax 0 (pymin 10 (healthScoreRaw now gi dep gh q)) := by
  simp only [_calculate_health_score, healthScoreRaw]
  rw [uncommittedBlock_eq, commitAgeBlock_eq, remoteStatusBlock_eq, depsBlock_eq,
      multiLangBlock_eq, githubBlock_eq, qualityBlock_eq]

theorem clamp_bounds (x : ℚ) : 0 ≤ pymax 0 (pymin 10 x) ∧ pymax 0 (pymin 10 x) ≤ 10 := by
  unfold pymax pymin
  split_ifs <;> constructor <;> linarith

/-! ## Helper lemmas: concrete evaluations and structural facts -/

theorem fetch_none (pr : Option (List Unit)) :
    _fetch_github_info none pr = default_github_info := rfl

theorem git_envOk : _get_git_info pf0 (.ok 0 "main") (.ok 0 "") (.ok 0 "") = some gitOk := by
  decide

theorem dep_absent_eval : _check_dependencies .absent .absent .absent .absent = dep0 := by
  decide

theorem fetch_repoC4 :
    _fetch_github_info (some repoC4) none =
      { stars := 5, open_issues := 3, open_prs := 0, last_activity := none,
        workflow_status := "unknown" } := by
  decide

theorem score_envOk :
    _calculate_health_score 0 gitOk dep0 (some default_github_info) (some qual0) = 19/2 := by
  rw [health_score_eq_raw]
  norm_num [healthScoreRaw, uncommittedAdj, commitAgeAdj, remoteStatusAdj, depsAdj,
    multiLangAdj, githubAdj, qualityAdj, openIssuesAdj, openPRsAdj, starsAdj, activityAdj,
    totalDeps, gitOk, dep0, qual0, default_github_info, pymin, pymax]

theorem score_envC4 :
    _calculate_health_score 0 gitOk dep0
      (some { stars := 5, open_issues := 3, open_prs := 0, last_activity := none,
              workflow_status := "unknown" }) (some qual0) = 19/2 := by
  rw [health_score_eq_raw]
  norm_num [healthScoreRaw, uncommittedAdj, commitAgeAdj, remoteStatusAdj, depsAdj,
    multiLangAdj, githubAdj, qualityAdj, openIssuesAdj, openPRsAdj, starsAdj, activityAdj,
    totalDeps, gitOk, dep0, qual0, pymin, pymax]

theorem analyze_envOk : _analyze_project envOk = some healthOk := by
  simp only [_analyze_project, envOk, git_envOk, dep_absent_eval, fetch_none]
  rw [score_envOk]
  rfl

theorem analyze_envC4 : _analyze_project envC4 = some healthC4 := by
  simp only [_analyze_project, envC4, envOk, git_envOk, dep_absent_eval, fetch_repoC4]
  rw [score_envC4]
  rfl

theorem scan_envOk : scan_projects envOk [] = [healthOk] := by
  have hg : envOk.has_git = true := rfl
  simp [scan_projects, analyze_envOk, hg]

theorem mem_scan_envOk : healthOk ∈ scan_projects envOk [] := by
  rw [scan_envOk]
  exact List.mem_singleton.2 rfl

theorem git_info_fail (pd : String → Option Int) (b c s : CmdResult)
    (h : (cmdFailed b || cmdFailed c || cmdFailed s) = true) :
    _get_git_info pd b c s = none := by
  cases b with
  | fail => rfl
  | ok rc o =>
    cases c with
    | fail =>
      simp only [_get_git_info]
      split_ifs <;> rfl
    | ok rc2 o2 =>
      cases s with
      | fail =>
        simp only [_get_git_info]
        split_ifs <;> rfl
      | ok rc3 o3 =>
        simp only [cmdFailed, Bool.or_eq_true, bne_iff_ne] at h
        simp only [_get_git_info]
        rcases h with (h | h) | h <;> split_ifs <;> simp_all

theorem analyze_skip_on_git_none (env : ProjectEnv)
    (h : _get_git_info env.parseDate env.branch_res env.commit_res env.status_res = none) :
    _analyze_project env = none := by
  simp only [_analyze_project, h]
  split <;> rfl

theorem git_info_remote_unknown (pd : String → Option Int) (b c s : CmdResult) (gi : GitInfo)
    (h : _get_git_info pd b c s = some gi) : gi.remote_status = "unknown" := by
  cases b with
  | fail => simp [_get_git_info] at h
  | ok rc o =>
    cases c with
    | fail => simp only [_get_git_info] at h; split_ifs at h <;> simp_all
    | ok rc2 o2 =>
      cases s with
      | fail => simp only [_get_git_info] at h; split_ifs at h <;> simp_all
      | ok rc3 o3 =>
        simp only [_get_git_info] at h
        split_ifs at h <;>
          first
          | exact Option.noConfusion h
          | (injection h with h2; rw [← h2])

theorem analyze_remote_unknown (env : ProjectEnv) (h : ProjectHealth)
    (hh : _analyze_project env = some h) : h.remote_status = "unknown" := by
  revert hh
  simp only [_analyze_project]
  split
  · cases hgi : _get_git_info env.parseDate env.branch_res env.commit_res env.status_res with
    | none => simp
    | some gi =>
      intro hh
      simp only [Option.some.injEq] at hh
      rw [← hh]
      exact git_info_remote_unknown _ _ _ _ _ hgi
  · simp

theorem analyze_has_git (env : ProjectEnv) (h : ProjectHealth)
    (hh : _analyze_project env = some h) : env.has_git = true := by
  by_contra hg
  rw [_analyze_project, if_neg hg] at hh
  exact Option.noConfusion hh

theorem analyze_isSome_indep (env : ProjectEnv) (r1 r1' : Option RepoApiData)
    (r2 r2' : Option (List Unit)) :
    (_analyze_project { env with repo_resp := r1, pr_resp := r2 }).isSome =
      (_analyze_project { env with repo_resp := r1', pr_resp := r2' }).isSome := by
  simp only [_analyze_project]
  cases hg : env.has_git
  · simp [hg]
  · simp only [hg, if_true]
    cases hgi : _get_git_info env.parseDate env.branch_res env.commit_res env.status_res <;>
      simp [hgi]

theorem checkReadmeList_absent (fs : String → FileOutcome) (l : List String)
    (h : ∀ f ∈ l, fs f = FileOutcome.absent) : checkReadmeList fs l = (false, 0) := by
  induction l with
  | nil => rfl
  | cons f rest ih =>
    have hf := h f (List.mem_cons_self f rest)
    simp only [checkReadmeList, hf]
    exact ih fun g hg => h g (List.mem_cons_of_mem f hg)

theorem checkReadmeList_found (fs : String → FileOutcome) (l1 : List String) (f : String)
    (l2 : List String) (s : String) (h1 : ∀ g ∈ l1, fs g = FileOutcome.absent)
    (h2 : fs f = FileOutcome.content s) :
    checkReadmeList fs (l1 ++ f :: l2) = (true, readmeTierLen s.length) := by
  induction l1 with
  | nil => simp only [List.nil_append, checkReadmeList, h2]
  | cons g rest ih =>
    have hg := h1 g (List.mem_cons_self g rest)
    simp only [List.cons_append, checkReadmeList, hg]
    exact ih fun x hx => h1 x (List.mem_cons_of_mem g hx)

theorem poetryStep_entry (p d : Nat) (l : String) (h : isSectionHeaderish l = false) :
    poetryStep ⟨true, false, p, d⟩ l =
      ⟨true, false, p + (if entryCounted l then 1 else 0), d⟩ := by
  simp only [isSectionHeaderish, Bool.or_eq_false_iff] at h
  obtain ⟨⟨h1, h2⟩, h3⟩ := h
  cases ha : (pyStrip l == "") <;> cases hb : pyStartsWith (pyStrip l) "#" <;>
    cases hc : pyContains (pyStrip l) "=" <;> cases hd : pyStartsWith (pyStrip l) "python" <;>
    simp_all [poetryStep, poetryStepStripped, entryCounted]

theorem poetry_foldl_section : ∀ (entries : List String) (p d : Nat),
    (∀ l ∈ entries, isSectionHeaderish l = false) →
    entries.foldl poetryStep ⟨true, false, p, d⟩ =
      ⟨true, false, p + (entries.filter entryCounted).length, d⟩ := by
  intro entries
  induction entries with
  | nil => intro p d _; simp
  | cons l rest ih =>
    intro p d h
    rw [List.foldl_cons, poetryStep_entry p d l (h l (List.mem_cons_self l rest))]
    rw [ih _ d fun x hx => h x (List.mem_cons_of_mem l hx)]
    simp only [List.filter_cons]
    cases hc : entryCounted l <;> simp [hc] <;> omega

/-! ## The claims -/

/-- C1: for every combination of VCS data, dependency data, optional remote
data and quality data, the aggregated health score lies in the closed
interval [0, 10], even when the unclamped baseline-plus-adjustments sum
would fall far outside that range. -/
theorem C1_health_score_always_clamped (now : Int) (gi : GitInfo) (dep : DepInfo)
    (gh : Option GithubInfo) (q : Option QualityInfo) :
    0 ≤ _calculate_health_score now gi dep gh q ∧
      _calculate_health_score now gi dep gh q ≤ 10 := by
  rw [health_score_eq_raw]
  exact clamp_bounds _

/-- C2 counterexample: with uncommitted-change count 75, a last commit 400
days before scan time, and no README/tests/CI/manifest/remote data, the
aggregated score is 2.5, not the claimed 3.0 = max(0, 10 − 3 − 4): the
−0.5 deduction for the always-'unknown' remote-sync status also applies. -/
theorem C2_counterexample :
    _calculate_health_score nowC2 gitC2 dep0 (some default_github_info) (some qual0) = 5/2 ∧
      (5/2 : ℚ) ≠ 3 := by
  constructor
  · rw [health_score_eq_raw]
    have hd : daysBetween nowC2 0 = 400 := by decide
    norm_num [healthScoreRaw, uncommittedAdj, commitAgeAdj, remoteStatusAdj, depsAdj,
      multiLangAdj, githubAdj, qualityAdj, openIssuesAdj, openPRsAdj, starsAdj, activityAdj,
      totalDeps, gitC2, dep0, qual0, default_github_info, pymin, pymax, hd]
  · norm_num

/-- C2 amended: in that scenario the aggregated health score equals
max(0, 10 − 3 − 4 − 0.5) = 2.5, the extra 0.5 being the remote-sync-status
deduction that applies to every scanned project. -/
theorem C2_amended_score :
    _calculate_health_score nowC2 gitC2 dep0 (some default_github_info) (some qual0) =
      pymax 0 (10 - 3 - 4 - 1/2) := by
  rw [health_score_eq_raw]
  have hd : daysBetween nowC2 0 = 400 := by decide
  norm_num [healthScoreRaw, uncommittedAdj, commitAgeAdj, remoteStatusAdj, depsAdj,
    multiLangAdj, githubAdj, qualityAdj, openIssuesAdj, openPRsAdj, starsAdj, activityAdj,
    totalDeps, gitC2, dep0, qual0, default_github_info, pymin, pymax, hd]

/-- C3 counterexample: with raw open-issue count 30 and a 10-entry PR
list, the displayed open-issue count is indeed 20, but the claimed
adjustments are wrong: the open-PR adjustment at 10 PRs is not −0.3
(10 is not > 10) and the open-issue adjustment at 20 is not −1.0
(20 is not > 20). -/
theorem C3_counterexample :
    (_fetch_github_info (some repoC3) (some prListC3)).open_issues = 20 ∧
    (_fetch_github_info (some repoC3) (some prListC3)).open_prs = 10 ∧
    ¬(openPRsAdj 10 = -(3/10) ∧ openIssuesAdj 20 = -1) := by
  refine ⟨by decide, by decide, ?_⟩
  rintro ⟨h1, -⟩
  norm_num [openPRsAdj] at h1

/-- C3 amended: with raw open-issue count 30 and a 10-entry PR list, the
displayed open-issue count is 20; the score adjustment for the 10 open
PRs is 0 (neither in 1..5 nor > 10) and the adjustment for the 20
displayed open issues is −0.5 (> 10 but not > 20). -/
theorem C3_amended_adjustments :
    (_fetch_github_info (some repoC3) (some prListC3)).open_issues = 20 ∧
    (_fetch_github_info (some repoC3) (some prListC3)).open_prs = 10 ∧
    openPRsAdj 10 = 0 ∧ openIssuesAdj 20 = -(1/2) := by
  refine ⟨by decide, by decide, ?_, ?_⟩
  · norm_num [openPRsAdj]
  · norm_num [openIssuesAdj]

/-- C4 counterexample: when the repository-metadata request succeeds (5
stars, raw issue count 3) but the pull-request-list request fails, the
project is still analyzed and included, yet its record keeps the 5 stars
and 3 raw issues from the successful first request — the remote fields
are NOT all at their documented zero defaults, contradicting the claim
for this kind of fetch failure. -/
theorem C4_counterexample :
    _analyze_project envC4 = some healthC4 ∧ healthC4.stars = 5 ∧ healthC4.open_issues = 3 ∧
      ¬(healthC4.stars = 0 ∧ healthC4.open_issues = 0) := by
  refine ⟨analyze_envC4, rfl, rfl, ?_⟩
  rintro ⟨h, -⟩
  exact absurd h (by decide)

/-- C4 amended: remote-fetch failures never change inclusion and never
raise; a failure of the repository-metadata request itself yields a
record with all remote fields at the documented defaults (0 stars,
0 issues, 0 PRs, 'unknown' workflow, absent last activity); a failure of
only the PR-list request defaults only the PR count to 0 and leaves the
displayed issue count at the raw conflated value, keeping the stars and
last-activity of the successful first request. -/
theorem C4_amended_degradation :
    (∀ pr_resp, _fetch_github_info none pr_resp = default_github_info) ∧
    (∀ (env : ProjectEnv) (r1 r1' : Option RepoApiData) (r2 r2' : Option (List Unit)),
      (_analyze_project { env with repo_resp := r1, pr_resp := r2 }).isSome =
        (_analyze_project { env with repo_resp := r1', pr_resp := r2' }).isSome) ∧
    (∀ (env : ProjectEnv) (h : ProjectHealth),
      _analyze_project { env with repo_resp := none } = some h →
      h.stars = 0 ∧ h.open_issues = 0 ∧ h.open_prs = 0 ∧ h.workflow_status = "unknown" ∧
        h.last_github_activity = none ∧ h.issues_count = 0) ∧
    (∀ data, _fetch_github_info (some data) none =
      { stars := data.stargazers_count, open_issues := data.open_issues_count, open_prs := 0,
        last_activity := match data.updated_at with | some p => p | none => none,
        workflow_status := "unknown" }) := by
  refine ⟨fetch_none, fun env r1 r1' r2 r2' => analyze_isSome_indep env r1 r1' r2 r2', ?_,
    fun data => rfl⟩
  intro env h hh
  simp only [_analyze_project] at hh
  split at hh
  · cases hgi : _get_git_info env.parseDate env.branch_res env.commit_res env.status_res with
    | none => rw [hgi] at hh; exact Option.noConfusion hh
    | some gi =>
      rw [hgi] at hh
      simp only [Option.some.injEq] at hh
      subst hh
      cases hrepo : env.github_repo <;> simp [hrepo, fetch_none, default_github_info]
  · exact Option.noConfusion hh

/-- C4 witness: the amended statement at concrete inputs. -/
theorem C4_amended_witness :
    _fetch_github_info none none = default_github_info ∧
    ((_analyze_project { envOk with repo_resp := some repoC4, pr_resp := none }).isSome =
      (_analyze_project { envOk with repo_resp := none, pr_resp := none }).isSome) ∧
    (healthOk.stars = 0 ∧ healthOk.open_issues = 0 ∧ healthOk.open_prs = 0 ∧
      healthOk.workflow_status = "unknown" ∧ healthOk.last_github_activity = none ∧
      healthOk.issues_count = 0) ∧
    _fetch_github_info (some repoC4) none =
      { stars := repoC4.stargazers_count, open_issues := repoC4.open_issues_count,
        open_prs := 0,
        last_activity := match repoC4.updated_at with | some p => p | none => none,
        workflow_status := "unknown" } :=
  ⟨C4_amended_degradation.1 none,
   C4_amended_degradation.2.1 envOk (some repoC4) none none none,
   C4_amended_degradation.2.2.1 envOk healthOk analyze_envOk,
   C4_amended_degradation.2.2.2 repoC4⟩

/-- C5: a directory without a `.git` entry is never analyzed into a
record, and every record in the scan output comes from a considered
directory (the root, or a non-hidden immediate child directory) that has
a `.git` entry. -/
theorem C5_git_gate :
    (∀ (env : ProjectEnv), _analyze_project { env with has_git := false } = none) ∧
    (∀ (root : ProjectEnv) (items : List DirEntry) (h : ProjectHealth),
      h ∈ scan_projects root items →
      (root.has_git = true ∧ _analyze_project root = some h) ∨
      ∃ it ∈ items, it.is_dir = true ∧ pyStartsWith it.name "." = false ∧
        it.env.has_git = true ∧ _analyze_project it.env = some h) := by
  constructor
  · intro env
    simp [_analyze_project]
  · intro root items h hmem
    simp only [scan_projects] at hmem
    rcases List.mem_append.1 hmem with hm | hm
    · left
      cases hg : root.has_git
      · rw [hg] at hm; simp at hm
      · rw [hg] at hm
        simp only [if_true] at hm
        exact ⟨rfl, by simpa [Option.mem_toList, Option.mem_def] using hm⟩
    · right
      rcases List.mem_filterMap.1 hm with ⟨it, hit, heq⟩
      by_cases hc : (it.is_dir && !pyStartsWith it.name ".") = true
      · rw [if_pos hc] at heq
        simp only [Bool.and_eq_true, Bool.not_eq_true'] at hc
        exact ⟨it, hit, hc.1, hc.2, analyze_has_git it.env h heq, heq⟩
      · rw [if_neg hc] at heq
        exact Option.noConfusion heq

/-- C5 witness: the gate at concrete inputs — a directory without `.git`
is skipped, and the record of a one-directory scan comes from the root,
which has `.git`. -/
theorem C5_git_gate_witness :
    _analyze_project { envOk with has_git := false } = none ∧
    ((envOk.has_git = true ∧ _analyze_project envOk = some healthOk) ∨
      ∃ it ∈ ([] : List DirEntry), it.is_dir = true ∧ pyStartsWith it.name "." = false ∧
        it.env.has_git = true ∧ _analyze_project it.env = some healthOk) :=
  ⟨C5_git_gate.1 envOk, C5_git_gate.2 envOk [] healthOk mem_scan_envOk⟩

/-- C6: a raised/timed-out or non-zero-exit git sub-operation makes the
whole VCS inspection return no data, and the project is then skipped with
no partial record; by contrast, a mere parse failure of the last-commit
timestamp (with all three commands succeeding) yields a full result whose
timestamp is simply absent. -/
theorem C6_vcs_failure_policy :
    (∀ pd b c s, (cmdFailed b || cmdFailed c || cmdFailed s) = true →
      _get_git_info pd b c s = none) ∧
    (∀ env, _get_git_info env.parseDate env.branch_res env.commit_res env.status_res = none →
      _analyze_project env = none) ∧
    (∀ pd bo co so, (pyStrip co == "") = false → pd (preprocessDate co) = none →
      _get_git_info pd (.ok 0 bo) (.ok 0 co) (.ok 0 so) =
        some { branch := if pyStrip bo == "" then "main" else pyStrip bo
               last_commit := none
               uncommitted := countNonEmptyLines so
               status := if countNonEmptyLines so == 0 then "clean" else "dirty"
               remote_status := "unknown" }) := by
  refine ⟨git_info_fail, analyze_skip_on_git_none, ?_⟩
  intro pd bo co so h1 h2
  simp only [_get_git_info, h1, h2]
  norm_num

/-- C6 witness: the failure policy at concrete inputs — a raised branch
query skips the project; a failing date parse still yields a record with
an absent timestamp. -/
theorem C6_vcs_failure_policy_witness :
    _get_git_info pf0 .fail (.ok 0 "") (.ok 0 "") = none ∧
    _analyze_project envFail = none ∧
    _get_git_info pf0 (.ok 0 "main") (.ok 0 dateW) (.ok 0 "") =
      some { branch := if pyStrip "main" == "" then "main" else pyStrip "main"
             last_commit := none
             uncommitted := countNonEmptyLines ""
             status := if countNonEmptyLines "" == 0 then "clean" else "dirty"
             remote_status := "unknown" } :=
  ⟨C6_vcs_failure_policy.1 pf0 .fail (.ok 0 "") (.ok 0 "") (by decide),
   C6_vcs_failure_policy.2.1 envFail (by decide),
   C6_vcs_failure_policy.2.2 pf0 "main" dateW "" (by decide) rfl⟩

/-- C7 counterexample: a README of 251 two-byte characters is 502 bytes
long; the byte-length reading of the tier rule gives tier 3 (> 500), but
the code computes the tier from the character count (251 ≤ 500, > 200)
and reports tier 2. -/
theorem C7_counterexample :
    check_readme fsC7 = (true, 2) ∧ readmeTierBytes readmeC7 = 3 ∧ (2 : Nat) ≠ 3 := by
  refine ⟨by decide, by decide, by decide⟩

/-- C7 amended: for the first README candidate found, the quality tier is
determined from the CHARACTER count of the decoded text by the fixed
thresholds (>2000→5, >1000→4, >500→3, >200→2, else→1), and the tier is 0
when no candidate exists. -/
theorem C7_amended_tiers :
    (∀ fs, (∀ f ∈ readme_files, fs f = FileOutcome.absent) → check_readme fs = (false, 0)) ∧
    (∀ fs l1 f l2 s, readme_files = l1 ++ f :: l2 → (∀ g ∈ l1, fs g = FileOutcome.absent) →
      fs f = FileOutcome.content s →
      check_readme fs = (true,
        if s.length > 2000 then 5 else if s.length > 1000 then 4 else if s.length > 500 then 3
        else if s.length > 200 then 2 else 1)) := by
  constructor
  · intro fs h
    exact checkReadmeList_absent fs readme_files h
  · intro fs l1 f l2 s hsplit h1 h2
    unfold check_readme
    rw [hsplit, checkReadmeList_found fs l1 f l2 s h1 h2]
    rfl

/-- C7 witness: the amended tier rule at concrete inputs. -/
theorem C7_amended_tiers_witness :
    check_readme (fun _ => FileOutcome.absent) = (false, 0) ∧
    check_readme fsC7 = (true,
      if readmeC7.length > 2000 then 5 else if readmeC7.length > 1000 then 4
      else if readmeC7.length > 500 then 3 else if readmeC7.length > 200 then 2 else 1) :=
  ⟨C7_amended_tiers.1 _ fun f _ => rfl,
   C7_amended_tiers.2 fsC7 [] "README.md" ["README.rst", "README.txt", "readme.md"] readmeC7
     rfl (fun g hg => absurd hg (List.not_mem_nil g)) (by decide)⟩

/-- C8 counterexample: a project with both a requirements.txt and a
Poetry pyproject gets the languages list `["Python", "Python"]` — one
distinct language — yet the +0.2 multi-ecosystem bonus is applied,
because the code tests the length of the duplicate-carrying list. -/
theorem C8_counterexample :
    depC8.languages = ["Python", "Python"] ∧
    depC8.languages.eraseDups = ["Python"] ∧
    healthScoreRaw 0 gitOk depC8 none none =
      healthScoreRaw 0 gitOk { depC8 with languages := [] } none none + 1/5 := by
  have hdep : depC8 =
      { has_deps := true, languages := ["Python", "Python"],
        dep_counts := [("pip", 1), ("poetry", 1)],
        details := ["pip: 1 requirements", "poetry: 1 deps"] } := by decide
  refine ⟨by rw [hdep], by rw [hdep]; decide, ?_⟩
  rw [hdep]
  norm_num [healthScoreRaw, uncommittedAdj, commitAgeAdj, remoteStatusAdj, depsAdj,
    multiLangAdj, githubAdj, qualityAdj, totalDeps, gitOk]

/-- C8 amended: the +0.2 adjustment is applied exactly when the
`languages` LIST built by the dependency analysis has more than one
entry; as the two Python manifest detectors each append "Python", this
can hold with a single distinct language. -/
theorem C8_amended_bonus (now : Int) (gi : GitInfo) (dep : DepInfo)
    (gh : Option GithubInfo) (q : Option QualityInfo) :
    healthScoreRaw now gi dep gh q =
      healthScoreRaw now gi { dep with languages := [] } gh q +
        (if dep.languages.length > 1 then (1/5 : ℚ) else 0) := by
  simp only [healthScoreRaw, multiLangAdj, depsAdj, totalDeps, List.length_nil]
  norm_num
  split_ifs <;> ring

/-- C9 counterexample: in a Poetry dependencies section holding the
runtime pin `python = "^3.10"`, the dependency `python-dateutil = "^2.8"`
and the dependency `requests = "^2"`, the code counts only 1 entry —
`python-dateutil` is also excluded by the `startswith('python')` test —
while the claim's reading (exclude only the runtime pin) counts 2. -/
theorem C9_counterexample :
    (poetryCounts pypLinesC9).1 = 1 ∧ claimSectionCount entriesC9 = 2 ∧ (1 : Nat) ≠ 2 := by
  refine ⟨by decide, by decide, by decide⟩

/-- C9 amended: inside the dependency-declaration section, the counted
lines are exactly the non-empty, non-comment lines containing the
key/value separator whose stripped text does not start with the prefix
`python` — this excludes the runtime version pin but also any dependency
whose name starts with `python`. -/
theorem C9_amended_count (entries : List String)
    (h : ∀ l ∈ entries, isSectionHeaderish l = false) :
    poetryCounts ("[tool.poetry.dependencies]" :: entries) =
      ((entries.filter entryCounted).length, 0) := by
  simp only [poetryCounts]
  rw [List.foldl_cons]
  have h0 : poetryStep ⟨false, false, 0, 0⟩ "[tool.poetry.dependencies]" =
      ⟨true, false, 0, 0⟩ := by decide
  rw [h0, poetry_foldl_section entries 0 0 h]
  simp

/-- C9 witness: the amended count at the concrete section of the
counterexample. -/
theorem C9_amended_count_witness :
    poetryCounts ("[tool.poetry.dependencies]" :: entriesC9) =
      ((entriesC9.filter entryCounted).length, 0) :=
  C9_amended_count entriesC9 (by decide)

/-- C10: the VCS inspector reports remote-sync status 'unknown' for every
successfully inspected repository, every produced record carries that
status, and consequently the unclamped score of every scanned project is
0.5 lower than it would be with a known remote status. -/
theorem C10_remote_unknown :
    (∀ pd b c s gi, _get_git_info pd b c s = some gi → gi.remote_status = "unknown") ∧
    (∀ env h, _analyze_project env = some h → h.remote_status = "unknown") ∧
    (∀ (now : Int) (gi : GitInfo) (dep : DepInfo) (gh : Option GithubInfo)
       (q : Option QualityInfo), gi.remote_status = "unknown" →
      healthScoreRaw now gi dep gh q =
        healthScoreRaw now { gi with remote_status := "clean" } dep gh q - 1/2) := by
  refine ⟨git_info_remote_unknown, analyze_remote_unknown, ?_⟩
  intro now gi dep gh q hrs
  have e1 : remoteStatusAdj "unknown" = -(1/2) := by
    simp [remoteStatusAdj]
  have e2 : remoteStatusAdj "clean" = 0 := by
    simp only [remoteStatusAdj]
    rw [if_neg (by decide)]
  obtain ⟨br, lc, un, st, rs⟩ := gi
  simp only at hrs
  subst hrs
  simp only [healthScoreRaw]
  rw [e1, e2]
  ring

/-- C10 witness: the three parts at concrete inputs. -/
theorem C10_remote_unknown_witness :
    gitOk.remote_status = "unknown" ∧ healthOk.remote_status = "unknown" ∧
    healthScoreRaw 0 gitOk dep0 none none =
      healthScoreRaw 0 { gitOk with remote_status := "clean" } dep0 none none - 1/2 :=
  ⟨C10_remote_unknown.1 pf0 (.ok 0 "main") (.ok 0 "") (.ok 0 "") gitOk git_envOk,
   C10_remote_unknown.2.1 envOk healthOk analyze_envOk,
   C10_remote_unknown.2.2 0 gitOk dep0 none none rfl⟩
